import Mathlib

/-
  Verification of the plorth/parser AST data model
  (src/include/plorth/parser/ast.hpp).

  The six node classes (array, object, quote, string, symbol, word) are
  embedded as Lean structures whose fields mirror the const data members of
  the C++ classes; the abstract base class `token` becomes the sum type
  `node`.  `std::shared_ptr<token>` handles are embedded as `Ptr`
  (`Option Nat`): `none` is the null pointer and `some a` is the address of
  a cell in an explicit `Store` (a list of nodes, allocation appends).
  `std::u32string` is embedded as `String` (a sequence of Unicode scalar
  values).  The const accessor methods are embedded both as structure
  projections and, for the immutability claims, as a state-passing
  `runOp` function that returns the (unchanged, since every member is
  const and every method is const-qualified with a body that only reads a
  member) node together with the accessor result.
-/

namespace PlorthAst

/-- Modelled from the spec: the `position` value type lives in
`include/plorth/parser/position.hpp`, which is not part of the given
source fragment.  The spec describes it as
"{source-name (opaque identifier), line (1-based), column (1-based)}",
an immutable, comparable, copyable value. -/
structure Position where
  file : String
  line : Nat
  column : Nat
deriving DecidableEq, Repr

/-- Embedding of `std::shared_ptr<token>`: either the null pointer or the
address of a store cell. -/
abbrev Ptr := Option Nat

/-- Embedding of `enum class token::type` from ast.hpp (lines 45-59).
The underlying values are character codes, kept by `tokenType.code`. -/
inductive tokenType where
  | array
  | object
  | quote
  | string
  | symbol
  | word
deriving DecidableEq, Repr

/-- The underlying character value of each enumerator of
`enum class token::type`: `array = '['`, `object = '\x7b'`, `quote = '('`,
`string = '"'`, `symbol = 's'`, `word = ':'`. -/
def tokenType.code : tokenType → Char
  | .array => '['
  | .object => '\x7b'
  | .quote => '('
  | .string => '\"'
  | .symbol => 's'
  | .word => ':'

/-- The list of all six enumerators, in declaration order. -/
def tokenType.all : List tokenType :=
  [.array, .object, .quote, .string, .symbol, .word]

/-- Inverse of `tokenType.code`: recovers the enumerator from its
underlying character value. -/
def decodeType : Char → Option tokenType
  | '[' => some .array
  | '\x7b' => some .object
  | '(' => some .quote
  | '\"' => some .string
  | 's' => some .symbol
  | ':' => some .word
  | _ => none

/-- Embedding of `class array` (ast.hpp lines 97-125): the base-class
member `token::m_position` plus `m_elements`, both const, initialized by
the constructor and never written afterwards.  The structure constructor
`array.mk` is the embedding of `array::array` (lines 102-107), which
copies the `elements` argument into `m_elements`; the projection
`array.elements` is the embedding of the const accessor `elements()`. -/
structure array where
  position : Position
  elements : List Ptr
deriving DecidableEq, Repr

/-- Embedding of `class object` (ast.hpp lines 130-161):
`m_properties` is a `std::vector` of (u32string key, shared_ptr value)
pairs, copied verbatim by the constructor (lines 138-143) and returned
verbatim by `properties()` (lines 153-156). -/
structure object where
  position : Position
  properties : List (String × Ptr)
deriving DecidableEq, Repr

/-- Embedding of `class quote` (ast.hpp lines 166-194): `m_children`
copied by the constructor (lines 171-176), returned by `children()`. -/
structure quote where
  position : Position
  children : List Ptr
deriving DecidableEq, Repr

/-- Embedding of `class string` (ast.hpp lines 199-224): `m_value` is the
u32string copied by the constructor (lines 204-206), returned by
`value()`. -/
structure string where
  position : Position
  value : String
deriving DecidableEq, Repr

/-- Embedding of `class symbol` (ast.hpp lines 229-254): `m_id` is the
u32string copied by the constructor (lines 234-236), returned by
`id()`. -/
structure symbol where
  position : Position
  id : String
deriving DecidableEq, Repr

/-- Embedding of `class word` (ast.hpp lines 259-287): `m_symbol` is the
`shared_ptr<symbol>` handle copied by the constructor (lines 264-269) and
returned by the accessor (lines 279-282).  The constructor performs no
check on the handle: a null `shared_ptr` is stored verbatim. -/
structure word where
  position : Position
  symbol : Ptr
deriving DecidableEq, Repr

/-- The closed set of concrete token shapes: the sum over the six classes
deriving from the abstract base `class token`. -/
inductive node where
  | array (a : array)
  | object (o : object)
  | quote (q : quote)
  | string (s : string)
  | symbol (s : symbol)
  | word (w : word)
deriving DecidableEq, Repr

/-- Embedding of the base accessor `token::position()` (ast.hpp lines
74-77): each class stores the position fixed by the base constructor
(lines 66-67). -/
def node.position : node → Position
  | .array a => a.position
  | .object o => o.position
  | .quote q => q.position
  | .string s => s.position
  | .symbol s => s.position
  | .word w => w.position

/-- Embedding of the virtual `type()` method: each class overrides it to
return its own enumerator (ast.hpp lines 109-112, 145-148, 178-181,
208-211, 238-241, 271-274). -/
def node.type : node → tokenType
  | .array _ => .array
  | .object _ => .object
  | .quote _ => .quote
  | .string _ => .string
  | .symbol _ => .symbol
  | .word _ => .word

/-- The accessor methods callable on a constructed node. -/
inductive accessorOp where
  | getPosition
  | getType
  | getElements
  | getProperties
  | getChildren
  | getValue
  | getId
  | getSymbol
deriving DecidableEq, Repr

/-- Results returned by the accessor methods. -/
inductive accessorResult where
  | posR (p : Position)
  | typeR (t : tokenType)
  | handlesR (l : List Ptr)
  | propsR (l : List (String × Ptr))
  | textR (s : String)
  | handleR (h : Ptr)
deriving DecidableEq, Repr

/-- Which accessors the C++ interface defines on which class:
`position()` and `type()` on every token (base class, lines 74-82),
`elements()` only on array, `properties()` only on object, `children()`
only on quote, `value()` only on string, `id()` only on symbol, and
`symbol()` only on word. -/
def opDefined : tokenType → accessorOp → Bool
  | _, .getPosition => true
  | _, .getType => true
  | .array, .getElements => true
  | .object, .getProperties => true
  | .quote, .getChildren => true
  | .string, .getValue => true
  | .symbol, .getId => true
  | .word, .getSymbol => true
  | _, _ => false

/-- State-passing embedding of calling one accessor method on a node.
Every method in ast.hpp is const-qualified, every data member is const,
and every method body is a single return of a member, so the post-call
node equals the pre-call node; an accessor that the class does not
declare yields `none` (such a call does not compile in C++). -/
def node.runOp : node → accessorOp → Option accessorResult × node
  | n, .getPosition => (some (.posR n.position), n)
  | n, .getType => (some (.typeR n.type), n)
  | .array a, .getElements => (some (.handlesR a.elements), .array a)
  | .object o, .getProperties => (some (.propsR o.properties), .object o)
  | .quote q, .getChildren => (some (.handlesR q.children), .quote q)
  | .string s, .getValue => (some (.textR s.value), .string s)
  | .symbol s, .getId => (some (.textR s.id), .symbol s)
  | .word w, .getSymbol => (some (.handleR w.symbol), .word w)
  | n, _ => (none, n)

/-- The node resulting from a whole sequence of accessor calls. -/
def node.runOps (n : node) (ops : List accessorOp) : node :=
  ops.foldl (fun m o => (m.runOp o).2) n

/-- The heap of shared nodes: `shared_ptr` targets live here, a handle
`some a` dereferences to cell `a`. -/
abbrev Store := List node

/-- Allocate a node in the store, returning the new store and the fresh
address. -/
def Store.alloc (s : Store) (n : node) : Store × Nat :=
  (s ++ [n], s.length)

/-- Dereference a handle: the null pointer dereferences to nothing. -/
def Store.deref (s : Store) (h : Ptr) : Option node :=
  h.bind fun a => s.get? a

/-- The child node an array exposes at index `i`: look up the stored
handle, then follow it through the store. -/
def array.childAt (s : Store) (a : array) (i : Nat) : Option node :=
  (a.elements.get? i).bind fun h => s.deref h

/-- Modelled from the spec: equality between two Symbol nodes "is defined
purely on `id()` content; position does not participate"; ast.hpp itself
declares no equality operator for `class symbol`, so this operation is
taken from the spec's words. -/
def symbol.eq (a b : symbol) : Bool :=
  a.id == b.id

/-- Modelled from the spec: a fail-fast word constructor, which the spec's
error-handling section calls for ("malformed input (e.g., a null child
reference) ... should fail fast (assertion/invariant violation)").  It
rejects a null symbol handle instead of producing a node.  ast.hpp's
actual constructor (lines 264-269) performs no such check; this
definition exists to be compared against it. -/
def word.mkChecked (p : Position) (h : Ptr) : Option word :=
  if h.isSome then some (word.mk p h) else none

/-- The caller-side mutable state from which nodes are built: a container
of child handles (for array elements or quote children), a container of
property pairs, and a text buffer, standing for the
`std::vector`/`std::u32string` variables a parser passes by const
reference to the constructors. -/
structure callerBuffers where
  elems : List Ptr
  props : List (String × Ptr)
  text : String
deriving DecidableEq, Repr

/-- Overwrite the caller's child-handle container after construction. -/
def setElems (b : callerBuffers) (l : List Ptr) : callerBuffers :=
  { b with elems := l }

/-- Overwrite the caller's property-pair container after construction. -/
def setProps (b : callerBuffers) (l : List (String × Ptr)) : callerBuffers :=
  { b with props := l }

/-- Overwrite the caller's text buffer after construction. -/
def setText (b : callerBuffers) (t : String) : callerBuffers :=
  { b with text := t }

/-- Build an array from the current contents of the caller's container:
`array::array` copy-initializes the const member `m_elements` from the
`const container_type&` argument (ast.hpp lines 102-107), so the node
keeps the value the container held at construction time. -/
def buildArray (p : Position) (b : callerBuffers) : array :=
  array.mk p b.elems

/-- Build an object from the current contents of the caller's
property-pair container: `object::object` copy-initializes the const
member `m_properties` from the `const container_type&` argument
(ast.hpp lines 138-143). -/
def buildObject (p : Position) (b : callerBuffers) : object :=
  object.mk p b.props

/-- Build a quote from the current contents of the caller's child-handle
container: `quote::quote` copy-initializes the const member `m_children`
from the `const container_type&` argument (ast.hpp lines 171-176). -/
def buildQuote (p : Position) (b : callerBuffers) : quote :=
  quote.mk p b.elems

/-- Build a string node from the current contents of the caller's text
buffer (`string::string`, ast.hpp lines 204-206, copies the u32string
into the const member `m_value`). -/
def buildString (p : Position) (b : callerBuffers) : string :=
  string.mk p b.text

/-- Build a symbol node from the current contents of the caller's text
buffer (`symbol::symbol`, ast.hpp lines 234-236, copies the u32string
into the const member `m_id`). -/
def buildSymbol (p : Position) (b : callerBuffers) : symbol :=
  symbol.mk p b.text

/-- Build an array and then overwrite the caller's container, returning
the node together with the caller's final state. -/
def buildThenMutateArray (p : Position) (b : callerBuffers) (l : List Ptr) :
    array × callerBuffers :=
  let n := buildArray p b
  let b2 := setElems b l
  (n, b2)

/-- Build an object and then overwrite the caller's property-pair
container, returning the node together with the caller's final state. -/
def buildThenMutateObject (p : Position) (b : callerBuffers)
    (l : List (String × Ptr)) : object × callerBuffers :=
  let n := buildObject p b
  let b2 := setProps b l
  (n, b2)

/-- Build a quote and then overwrite the caller's child-handle container,
returning the node together with the caller's final state. -/
def buildThenMutateQuote (p : Position) (b : callerBuffers) (l : List Ptr) :
    quote × callerBuffers :=
  let n := buildQuote p b
  let b2 := setElems b l
  (n, b2)

/-- Build a string node and then overwrite the caller's text buffer. -/
def buildThenMutateString (p : Position) (b : callerBuffers) (t : String) :
    string × callerBuffers :=
  let n := buildString p b
  let b2 := setText b t
  (n, b2)

/-- Build a symbol node and then overwrite the caller's text buffer. -/
def buildThenMutateSymbol (p : Position) (b : callerBuffers) (t : String) :
    symbol × callerBuffers :=
  let n := buildSymbol p b
  let b2 := setText b t
  (n, b2)

/-- A sample position for concrete instances. -/
def testPos : Position :=
  Position.mk "test" 3 5

end PlorthAst

namespace PlorthAst

/- Helper lemmas shared by the claim theorems. -/

/-- Calling any single accessor leaves the node unchanged. -/
theorem runOp_snd_eq (n : node) (o : accessorOp) : (n.runOp o).2 = n := by
  cases n <;> cases o <;> rfl

/-- Calling any sequence of accessors leaves the node unchanged. -/
theorem runOps_eq (n : node) (ops : List accessorOp) : n.runOps ops = n := by
  induction ops generalizing n with
  | nil => rfl
  | cons o rest ih =>
    show ((n.runOp o).2).runOps rest = n
    rw [runOp_snd_eq]
    exact ih n

/-- Claim C1: for every constructed node of any of the six variants, the
`type()` accessor returns the discriminant of the variant used at
construction, and this result never changes over any sequence of
operations performed on the node. -/
theorem type_matches_construction_and_is_stable :
    (∀ (p : Position) (es : List Ptr),
      (node.array (array.mk p es)).type = tokenType.array)
    ∧ (∀ (p : Position) (pr : List (String × Ptr)),
      (node.object (object.mk p pr)).type = tokenType.object)
    ∧ (∀ (p : Position) (cs : List Ptr),
      (node.quote (quote.mk p cs)).type = tokenType.quote)
    ∧ (∀ (p : Position) (v : String),
      (node.string (string.mk p v)).type = tokenType.string)
    ∧ (∀ (p : Position) (i : String),
      (node.symbol (symbol.mk p i)).type = tokenType.symbol)
    ∧ (∀ (p : Position) (h : Ptr),
      (node.word (word.mk p h)).type = tokenType.word)
    ∧ (∀ (n : node) (ops : List accessorOp), (n.runOps ops).type = n.type) := by
  refine ⟨fun _ _ => rfl, fun _ _ => rfl, fun _ _ => rfl, fun _ _ => rfl,
    fun _ _ => rfl, fun _ _ => rfl, fun n ops => ?_⟩
  rw [runOps_eq]

/-- Claim C2: `elements()` of an array and `children()` of a quote return
exactly the handle sequence supplied at construction (same order, same
count, same handle identities), and a handle shared between two arrays is
observed as the identical store instance from both parents. -/
theorem elements_children_exact_and_shared (s : Store) (p1 p2 : Position)
    (es1 es2 cs : List Ptr) (i j : Nat)
    (hshare : (array.mk p1 es1).elements.get? i
      = (array.mk p2 es2).elements.get? j) :
    (array.mk p1 es1).elements = es1
    ∧ (quote.mk p1 cs).children = cs
    ∧ (array.mk p1 es1).childAt s i = (array.mk p2 es2).childAt s j := by
  refine ⟨rfl, rfl, ?_⟩
  unfold array.childAt
  rw [hshare]

/-- Witness for claim C2 at a concrete store and concrete arrays sharing
the handle `some 0`. -/
theorem elements_children_exact_and_shared_witness :
    (array.mk testPos [some 0]).elements.get? 0
      = (array.mk testPos [some 0, none]).elements.get? 0
    ∧ ((array.mk testPos [some 0]).elements = [some 0]
      ∧ (quote.mk testPos []).children = []
      ∧ (array.mk testPos [some 0]).childAt
          [node.string (string.mk testPos "a")] 0
        = (array.mk testPos [some 0, none]).childAt
          [node.string (string.mk testPos "a")] 0) :=
  ⟨rfl, elements_children_exact_and_shared
    [node.string (string.mk testPos "a")] testPos testPos
    [some 0] [some 0, none] [] 0 0 rfl⟩

/-- Claim C3: every accessor the interface defines on a constructed node
is total (returns a result) and side-effect-free (the node after the call
is the node before the call, so position, content and children are
unchanged). -/
theorem accessors_total_and_pure (n : node) (o : accessorOp)
    (hdef : opDefined n.type o = true) :
    ((n.runOp o).1.isSome = true) ∧ (n.runOp o).2 = n := by
  constructor
  · cases n <;> cases o <;> simp_all [node.runOp, node.type, opDefined]
  · exact runOp_snd_eq n o

/-- Witness for claim C3: calling `value()` on a concrete string node. -/
theorem accessors_total_and_pure_witness :
    opDefined (node.string (string.mk testPos "a")).type
      accessorOp.getValue = true
    ∧ ((((node.string (string.mk testPos "a")).runOp
        accessorOp.getValue).1.isSome = true)
      ∧ ((node.string (string.mk testPos "a")).runOp
        accessorOp.getValue).2 = node.string (string.mk testPos "a")) :=
  ⟨rfl, accessors_total_and_pure (node.string (string.mk testPos "a"))
    accessorOp.getValue rfl⟩

/-- Claim C4 counterexample: constructing a word from a null symbol
handle, or an array containing a null child handle, does not fail: the
ast.hpp constructors contain no assertion or check, so a node is produced
that stores the null handle verbatim, whereas the fail-fast constructor
the claim describes (modelled from the spec as `word.mkChecked`) would
refuse to produce one. -/
theorem null_child_not_rejected_counterexample :
    word.mkChecked testPos none = none
    ∧ (word.mk testPos none).symbol = none
    ∧ (node.word (word.mk testPos none)).type = tokenType.word
    ∧ (array.mk testPos [none]).elements = [none] :=
  ⟨rfl, rfl, rfl, rfl⟩

/-- Claim C4 (amended): constructing a node from a null child reference
is not checked at this layer: no assertion fires and no recoverable error
is raised; the constructor produces a node storing the null handle
verbatim, and the accessors return it unchanged. -/
theorem null_child_stored_verbatim :
    (∀ p : Position, (word.mk p none).symbol = none
      ∧ (node.word (word.mk p none)).type = tokenType.word)
    ∧ (∀ p : Position, (array.mk p [none]).elements = [none])
    ∧ (∀ p : Position, (quote.mk p [none]).children = [none]) :=
  ⟨fun _ => ⟨rfl, rfl⟩, fun _ => rfl, fun _ => rfl⟩

/-- Claim C5: equality between two Symbol nodes holds exactly when their
`id()` texts are equal — exact text equality, no case-folding — and the
position of a Symbol does not participate. -/
theorem symbol_equality_is_id_equality :
    (∀ a b : symbol, symbol.eq a b = true ↔ a.id = b.id)
    ∧ (∀ (p1 p2 : Position) (i : String),
      symbol.eq (symbol.mk p1 i) (symbol.mk p2 i) = true)
    ∧ symbol.eq (symbol.mk testPos "A") (symbol.mk testPos "a") = false := by
  refine ⟨fun a b => ?_, fun p1 p2 i => ?_, by decide⟩
  · simp [symbol.eq]
  · simp [symbol.eq]

/-- Claim C6: `properties()` of an object returns exactly the (key,
handle) pairs supplied at construction, in insertion order, duplicates
preserved verbatim with no uniqueness enforcement: keys ["a","a"] with
values [X,Y] round-trip as [("a",X),("a",Y)]. -/
theorem object_properties_exact_with_duplicates :
    (∀ (p : Position) (props : List (String × Ptr)),
      (object.mk p props).properties = props)
    ∧ (object.mk testPos [("a", some 0), ("a", some 1)]).properties
      = [("a", some 0), ("a", some 1)] :=
  ⟨fun _ _ => rfl, rfl⟩

/-- Claim C7: for every node of every variant, `position()` returns
exactly the Position value passed to the constructor, always succeeds,
and is unchanged by any sequence of operations on the node. -/
theorem position_matches_construction_and_is_stable :
    (∀ (p : Position) (es : List Ptr),
      (node.array (array.mk p es)).position = p)
    ∧ (∀ (p : Position) (pr : List (String × Ptr)),
      (node.object (object.mk p pr)).position = p)
    ∧ (∀ (p : Position) (cs : List Ptr),
      (node.quote (quote.mk p cs)).position = p)
    ∧ (∀ (p : Position) (v : String),
      (node.string (string.mk p v)).position = p)
    ∧ (∀ (p : Position) (i : String),
      (node.symbol (symbol.mk p i)).position = p)
    ∧ (∀ (p : Position) (h : Ptr),
      (node.word (word.mk p h)).position = p)
    ∧ (∀ (n : node) (ops : List accessorOp),
      (n.runOps ops).position = n.position)
    ∧ (∀ n : node,
      (n.runOp accessorOp.getPosition).1
        = some (accessorResult.posR n.position)) := by
  refine ⟨fun _ _ => rfl, fun _ _ => rfl, fun _ _ => rfl, fun _ _ => rfl,
    fun _ _ => rfl, fun _ _ => rfl, fun n ops => ?_, fun n => ?_⟩
  · rw [runOps_eq]
  · cases n <;> rfl

/-- Claim C8: `symbol()` of a word returns exactly the Symbol handle
supplied at construction (the identical store instance, not a copy), and
the wrapped symbol's `id()` is unchanged by the wrapping: after allocating
the word node, the handle still dereferences to the very same symbol
node. -/
theorem word_symbol_exact (s : Store) (p : Position) (h : Ptr) (sy : symbol)
    (hsy : s.deref h = some (node.symbol sy)) :
    (word.mk p h).symbol = h
    ∧ (s.alloc (node.word (word.mk p h))).1.deref h = some (node.symbol sy) := by
  refine ⟨rfl, ?_⟩
  cases h with
  | none => exact absurd hsy (by simp [Store.deref])
  | some a =>
    simp only [Store.deref, Option.bind, Store.alloc] at hsy ⊢
    rcases Nat.lt_or_ge a s.length with hlt | hge
    · rw [List.get?_append hlt]
      exact hsy
    · rw [List.get?_eq_none.mpr hge] at hsy
      exact absurd hsy (by simp)

/-- Witness for claim C8 at a concrete one-cell store holding the symbol
"foo" at address 0. -/
theorem word_symbol_exact_witness :
    Store.deref [node.symbol (symbol.mk testPos "foo")] (some 0)
      = some (node.symbol (symbol.mk testPos "foo"))
    ∧ ((word.mk testPos (some 0)).symbol = some 0
      ∧ (Store.alloc [node.symbol (symbol.mk testPos "foo")]
          (node.word (word.mk testPos (some 0)))).1.deref (some 0)
        = some (node.symbol (symbol.mk testPos "foo"))) :=
  ⟨rfl, word_symbol_exact [node.symbol (symbol.mk testPos "foo")] testPos
    (some 0) (symbol.mk testPos "foo") rfl⟩

/-- Claim C9: every constructor copies its content argument into the
node — the element container for Array, the property container for
Object, the children container for Quote, the text for String and
Symbol: after construction, overwriting the caller's original container
or text buffer leaves the constructed node's accessor results at the
values the buffer held at construction time, while the caller's buffer
now holds the new value. -/
theorem constructors_copy_content :
    (∀ (p : Position) (b : callerBuffers) (l : List Ptr),
      (buildThenMutateArray p b l).1.elements = b.elems
      ∧ (buildThenMutateArray p b l).2.elems = l)
    ∧ (∀ (p : Position) (b : callerBuffers) (l : List (String × Ptr)),
      (buildThenMutateObject p b l).1.properties = b.props
      ∧ (buildThenMutateObject p b l).2.props = l)
    ∧ (∀ (p : Position) (b : callerBuffers) (l : List Ptr),
      (buildThenMutateQuote p b l).1.children = b.elems
      ∧ (buildThenMutateQuote p b l).2.elems = l)
    ∧ (∀ (p : Position) (b : callerBuffers) (t : String),
      (buildThenMutateString p b t).1.value = b.text
      ∧ (buildThenMutateString p b t).2.text = t)
    ∧ (∀ (p : Position) (b : callerBuffers) (t : String),
      (buildThenMutateSymbol p b t).1.id = b.text
      ∧ (buildThenMutateSymbol p b t).2.text = t) :=
  ⟨fun _ _ _ => ⟨rfl, rfl⟩, fun _ _ _ => ⟨rfl, rfl⟩, fun _ _ _ => ⟨rfl, rfl⟩,
    fun _ _ _ => ⟨rfl, rfl⟩, fun _ _ _ => ⟨rfl, rfl⟩⟩

/-- Claim C10: the six token type discriminants are the pairwise distinct
character codes '[', '\x7b', '(', '"', 's', ':', so the value returned by
`type()` uniquely determines the concrete variant: `decodeType` recovers
the enumerator from the code of every node's type, making exhaustive
matching over exactly six cases sound. -/
theorem discriminants_distinct_and_determine_variant :
    (tokenType.all.map tokenType.code).Nodup
    ∧ tokenType.all.map tokenType.code = ['[', '\x7b', '(', '\"', 's', ':']
    ∧ (∀ t : tokenType, decodeType t.code = some t)
    ∧ (∀ n : node, decodeType n.type.code = some n.type)
    ∧ (∀ n : node, n.type ∈ tokenType.all) := by
  refine ⟨by decide, rfl, fun t => ?_, fun n => ?_, fun n => ?_⟩
  · cases t <;> rfl
  · cases n <;> rfl
  · cases n <;> simp [node.type, tokenType.all]

end PlorthAst
